import Mathlib

/-!
# Navya Jewels storefront — verification of the cart/checkout/order slice

Shallow embedding of `src/server.js` (Express storefront with a session
cart, flat-file JSON collections, and order creation).  JavaScript numbers
that can be `NaN` (results of `parseInt` on arbitrary strings) are embedded
as `Option Int` with `none` playing the role of `NaN`; session carts whose
quantities are ordinary integers are embedded with `Int` quantities.
Request handlers become pure functions from their inputs (parsed body
fields, the session cart, the loaded collections) to a response together
with the updated session cart and collections.
-/

set_option autoImplicit false

namespace NavyaJewels

/-- A catalog record, as seeded and stored in `data/products.json`
(`src/server.js` lines 63-146). -/
structure Product where
  id : String
  name : String
  price : Int
  image : String
  category : String
  metal : String
  carat : Int
  description : String
  deriving DecidableEq

/-- A session-cart entry `{ productId, quantity }` with an ordinary integer
quantity (`src/server.js` line 285). -/
structure CartEntry where
  productId : String
  quantity : Int
  deriving DecidableEq

/-- A priced line item produced by the live materialization used by
`GET /cart`, `GET /checkout` and the invalid branch of `POST /checkout`
(`src/server.js` lines 259-268). -/
structure LineItem where
  product : Product
  quantity : Int
  lineTotal : Int
  deriving DecidableEq

/-- A frozen order line `{ productId, name, price, quantity }` as written
into an order by `POST /checkout` (`src/server.js` lines 476-487). -/
structure OrderItem where
  productId : String
  name : String
  price : Int
  quantity : Int
  deriving DecidableEq

/-- An order record as appended to `data/orders.json`
(`src/server.js` lines 495-508). -/
structure Order where
  id : String
  userId : String
  customerName : String
  phone : String
  address : String
  city : String
  pincode : String
  paymentMethod : String
  items : List OrderItem
  total : Int
  status : String
  createdAt : String
  deriving DecidableEq

/-- Lookup `products.find((p) => p.id === id)` (`src/server.js` line 261 and
elsewhere). -/
def findProduct (products : List Product) (pid : String) : Option Product :=
  products.find? (fun p => p.id == pid)

/-- The live materialization of `GET /cart` (`src/server.js` lines
259-269): map each entry to a `LineItem` when its product resolves, to
`null` otherwise, then `.filter(Boolean)`. -/
def materializeLive (products : List Product) (cart : List CartEntry) :
    List LineItem :=
  (cart.map (fun item =>
    match findProduct products item.productId with
    | none => none
    | some product =>
        some { product := product
               quantity := item.quantity
               lineTotal := product.price * item.quantity })).filterMap id

/-- Total `detailedCart.reduce((sum, item) => sum + item.lineTotal, 0)`
(`src/server.js` line 271). -/
def liveTotal (products : List Product) (cart : List CartEntry) : Int :=
  (materializeLive products cart).foldl (fun sum item => sum + item.lineTotal) 0

/-- The snapshot materialization of `POST /checkout` (`src/server.js` lines
476-487): same join, but the surviving entries copy `productId`, `name`,
`price` and `quantity` instead of referencing the product. -/
def materializeSnapshot (products : List Product) (cart : List CartEntry) :
    List OrderItem :=
  (cart.map (fun item =>
    match findProduct products item.productId with
    | none => none
    | some product =>
        some { productId := product.id
               name := product.name
               price := product.price
               quantity := item.quantity })).filterMap id

/-- Total `detailedCart.reduce((sum, item) => sum + item.price * item.quantity, 0)`
(`src/server.js` lines 489-492). -/
def snapshotTotal (items : List OrderItem) : Int :=
  items.foldl (fun sum item => sum + item.price * item.quantity) 0

/-- The price contribution a single cart entry makes to the total: its
line total when the product resolves, `0` when the reference dangles. -/
def entryContrib (products : List Product) (item : CartEntry) : Int :=
  match findProduct products item.productId with
  | none => 0
  | some product => product.price * item.quantity

-- Unfolding lemmas for the two materializations.

theorem materializeLive_nil (products : List Product) :
    materializeLive products [] = [] := rfl

theorem materializeLive_cons (products : List Product) (e : CartEntry)
    (rest : List CartEntry) :
    materializeLive products (e :: rest) =
      (match findProduct products e.productId with
       | none => materializeLive products rest
       | some product =>
           { product := product
             quantity := e.quantity
             lineTotal := product.price * e.quantity } ::
             materializeLive products rest) := by
  cases h : findProduct products e.productId <;>
    simp [materializeLive, h]

theorem materializeSnapshot_nil (products : List Product) :
    materializeSnapshot products [] = [] := rfl

theorem materializeSnapshot_cons (products : List Product) (e : CartEntry)
    (rest : List CartEntry) :
    materializeSnapshot products (e :: rest) =
      (match findProduct products e.productId with
       | none => materializeSnapshot products rest
       | some product =>
           { productId := product.id
             name := product.name
             price := product.price
             quantity := e.quantity } ::
             materializeSnapshot products rest) := by
  cases h : findProduct products e.productId <;>
    simp [materializeSnapshot, h]

theorem foldl_add_lineTotal (l : List LineItem) (a : Int) :
    l.foldl (fun sum item => sum + item.lineTotal) a =
      a + (l.map LineItem.lineTotal).sum := by
  induction l generalizing a with
  | nil => simp
  | cons x xs ih => simp [List.foldl_cons, ih, add_assoc]

theorem foldl_add_priceQty (l : List OrderItem) (a : Int) :
    l.foldl (fun sum item => sum + item.price * item.quantity) a =
      a + (l.map (fun item => item.price * item.quantity)).sum := by
  induction l generalizing a with
  | nil => simp
  | cons x xs ih => simp [List.foldl_cons, ih, add_assoc]

/-- The total of the live materialization is the sum of per-entry
contributions, dangling entries contributing `0`. -/
theorem liveTotal_eq_sum (products : List Product) (cart : List CartEntry) :
    liveTotal products cart = (cart.map (entryContrib products)).sum := by
  induction cart with
  | nil => rfl
  | cons e rest ih =>
      rw [liveTotal, materializeLive_cons]
      cases h : findProduct products e.productId with
      | none =>
          simpa [entryContrib, h] using ih
      | some product =>
          have ih' : (List.map LineItem.lineTotal
              (materializeLive products rest)).sum =
              (rest.map (entryContrib products)).sum := by
            have h0 := ih
            rw [liveTotal, foldl_add_lineTotal] at h0
            simpa using h0
          rw [foldl_add_lineTotal]
          simp [entryContrib, h, ih']

/-- The snapshot-form total equals the same per-entry sum. -/
theorem snapshotTotal_eq_sum (products : List Product) (cart : List CartEntry) :
    snapshotTotal (materializeSnapshot products cart) =
      (cart.map (entryContrib products)).sum := by
  induction cart with
  | nil => rfl
  | cons e rest ih =>
      rw [snapshotTotal, materializeSnapshot_cons]
      cases h : findProduct products e.productId with
      | none =>
          simpa [entryContrib, h] using ih
      | some product =>
          have ih' : (List.map (fun item => item.price * item.quantity)
              (materializeSnapshot products rest)).sum =
              (rest.map (entryContrib products)).sum := by
            have h0 := ih
            rw [snapshotTotal, foldl_add_priceQty] at h0
            simpa using h0
          rw [foldl_add_priceQty]
          simp [entryContrib, h, ih']

/-- JavaScript `parseInt(s, 10)`: skip leading whitespace, read an optional
sign, then consume leading decimal digits; `NaN` (embedded as `none`) when
no digit is found.  Trailing non-digit characters are ignored. -/
def parseIntJS (s : String) : Option Int :=
  let cs := s.toList.dropWhile (fun c => c.isWhitespace)
  let signed : Int × List Char :=
    match cs with
    | '-' :: rest => (-1, rest)
    | '+' :: rest => (1, rest)
    | _ => (1, cs)
  let ds := signed.2.takeWhile (fun c => c.isDigit)
  if ds.isEmpty then none
  else some (signed.1 *
    (ds.foldl (fun n c => n * 10 + (c.toNat - 48)) (0 : Nat) : Int))

/-- A session-cart entry whose quantity is a raw JavaScript number, which
can be `NaN` (embedded as `none`): what `POST /cart/add/:id` actually
stores, since the parsed quantity is written in unchecked
(`src/server.js` lines 278-285). -/
structure JSCartEntry where
  productId : String
  quantity : Option Int
  deriving DecidableEq

/-- JavaScript `+` on numbers that may be `NaN`: `NaN` absorbs. -/
def jadd : Option Int → Option Int → Option Int
  | some a, some b => some (a + b)
  | _, _ => none

/-- Mutation `existing.quantity += qty` applied to the first entry matching `pid`
(the one `Array.prototype.find` returns, `src/server.js` lines 281-283). -/
def bumpFirst (cart : List JSCartEntry) (pid : String) (qty : Option Int) :
    List JSCartEntry :=
  match cart with
  | [] => []
  | e :: rest =>
      if e.productId == pid then
        { e with quantity := jadd e.quantity qty } :: rest
      else
        e :: bumpFirst rest pid qty

/-- The cart mutation of `POST /cart/add/:id` (`src/server.js` lines
280-286): add `qty` to the existing entry for `pid`, else push a new entry
at the end. -/
def cartAddJS (cart : List JSCartEntry) (pid : String) (qty : Option Int) :
    List JSCartEntry :=
  if (cart.find? (fun item => item.productId == pid)).isSome then
    bumpFirst cart pid qty
  else
    cart ++ [{ productId := pid, quantity := qty }]

/-- Parse `parseInt(req.body.quantity || "1", 10)` (`src/server.js` line 278):
the default `"1"` kicks in only when the field is absent or the empty
string (the only falsy strings); any other string goes straight to
`parseInt`. -/
def addHandlerQty (body : Option String) : Option Int :=
  parseIntJS (match body with
    | none => "1"
    | some s => if s = "" then "1" else s)

/-- The full `POST /cart/add/:id` handler effect on the session cart
(`src/server.js` lines 276-289). -/
def cartAddHandler (cart : List JSCartEntry) (pid : String)
    (body : Option String) : List JSCartEntry :=
  cartAddJS cart pid (addHandlerQty body)

/-- Lookup of `quantities[productId]` in the submitted map, embedded as an
association list of string keys to raw string values. -/
def lookupQty (m : List (String × String)) (pid : String) : Option String :=
  (m.find? (fun kv => kv.fst == pid)).map (fun kv => kv.snd)

/-- Clamp `newQty > 0 ? newQty : 1` applied to the result of `parseInt`
(`src/server.js` lines 306-307): the comparison `NaN > 0` is false, so a
failed parse also lands on `1`. -/
def clampQty (newQty : Option Int) : Int :=
  match newQty with
  | some n => if n > 0 then n else 1
  | none => 1

/-- The body of the `forEach` in `POST /cart/update` for one entry
(`src/server.js` lines 304-309): `quantities[item.productId]` must be
truthy — present and not the empty string — for the entry to be touched. -/
def updOne (m : List (String × String)) (item : CartEntry) : CartEntry :=
  match lookupQty m item.productId with
  | none => item
  | some v =>
      if v = "" then item
      else { item with quantity := clampQty (parseIntJS v) }

/-- The `POST /cart/update` handler effect (`src/server.js` lines
301-311). -/
def updateQuantities (cart : List CartEntry) (m : List (String × String)) :
    List CartEntry :=
  cart.map (updOne m)

/-- The `POST /cart/remove/:id` handler effect (`src/server.js` lines
292-298). -/
def cartRemove (cart : List CartEntry) (pid : String) : List CartEntry :=
  cart.filter (fun item => !(item.productId == pid))

/-- Parse `parseInt(req.query.carat || "0", 10)` (`src/server.js` lines 188,
208, 228): absent or empty query falls back to `"0"`. -/
def parseCarat (q : Option String) : Option Int :=
  parseIntJS (match q with
    | none => "0"
    | some s => if s = "" then "0" else s)

/-- The metal listing handlers `GET /gold`, `GET /silver`, `GET /diamond`
(`src/server.js` lines 186-243), parameterized by the page's metal string:
filter by metal, then — only when the parsed purity is truthy, i.e. neither
`0` nor `NaN` — filter by exact carat equality. -/
def metalPage (products : List Product) (metal : String)
    (caratQ : Option String) : List Product :=
  let purity := parseCarat caratQ
  let list := products.filter (fun p => p.metal == metal)
  match purity with
  | none => list
  | some n => if n = 0 then list else list.filter (fun p => p.carat == n)

/-- Outcome of `fs.readFileSync` inside `readJson`: either the read throws
(`failure`) or it yields the raw file contents. -/
inductive FileRead where
  | failure
  | content (raw : String)
  deriving DecidableEq

/-- Loader `readJson` (`src/server.js` lines 44-51), with the external
`JSON.parse` collaborator abstracted as a fallible `parse` function:
read the file, parse `raw || "[]"`, and return `[]` on any thrown error
(unreadable file or malformed contents). -/
def readJson {α : Type} (parse : String → Option (List α)) (r : FileRead) :
    List α :=
  match r with
  | FileRead.failure => []
  | FileRead.content raw =>
      match parse (if raw = "" then "[]" else raw) with
      | none => []
      | some v => v

/-- The six body fields of `POST /checkout` (`src/server.js` line 451); a
field that is absent and a field that is the empty string are equally
falsy under `!field`, so both are embedded as `""`. -/
structure CheckoutForm where
  name : String
  phone : String
  address : String
  city : String
  pincode : String
  paymentMethod : String
  deriving DecidableEq

/-- All six required fields are present and non-empty — the negation of
the guard `!name || !phone || !address || !city || !pincode ||
!paymentMethod` (`src/server.js` line 455). -/
def allFieldsPresent (f : CheckoutForm) : Prop :=
  f.name ≠ "" ∧ f.phone ≠ "" ∧ f.address ≠ "" ∧ f.city ≠ "" ∧
    f.pincode ≠ "" ∧ f.paymentMethod ≠ ""

instance (f : CheckoutForm) : Decidable (allFieldsPresent f) := by
  unfold allFieldsPresent
  infer_instance

/-- What `POST /checkout` sends back: either a re-render of the checkout
view with line items, total and error message, or a redirect to
`/orders`. -/
inductive CheckoutResponse where
  | renderCheckout (cartItems : List LineItem) (total : Int) (error : String)
  | redirectOrders
  deriving DecidableEq

/-- The `POST /checkout` handler (`src/server.js` lines 450-514), run after
the `requireLogin` gate: inputs are the parsed body fields, the loaded
product collection, the session cart, the loaded order collection, the
session user's id, and the two nondeterministic environment values
(`"O" + Date.now()` and `new Date().toISOString()`) passed in as `oid` and
`ts`.  Output is the response, the new session cart and the order
collection as persisted. -/
def checkoutSubmit (form : CheckoutForm) (products : List Product)
    (cart : List CartEntry) (orders : List Order) (userId oid ts : String) :
    CheckoutResponse × List CartEntry × List Order :=
  if form.name = "" ∨ form.phone = "" ∨ form.address = "" ∨ form.city = "" ∨
      form.pincode = "" ∨ form.paymentMethod = "" then
    (CheckoutResponse.renderCheckout (materializeLive products cart)
      (liveTotal products cart) "Please fill all fields.", cart, orders)
  else
    let detailedCart := materializeSnapshot products cart
    let total := snapshotTotal detailedCart
    let newOrder : Order :=
      { id := oid
        userId := userId
        customerName := form.name
        phone := form.phone
        address := form.address
        city := form.city
        pincode := form.pincode
        paymentMethod := form.paymentMethod
        items := detailedCart
        total := total
        status := "Pending"
        createdAt := ts }
    (CheckoutResponse.redirectOrders, [], orders ++ [newOrder])

/-- What `GET /checkout` sends back (`src/server.js` lines 421-447). -/
inductive GetCheckoutResponse where
  | redirectCart
  | renderCheckout (cartItems : List LineItem) (total : Int)
  deriving DecidableEq

/-- The `GET /checkout` handler after the login gate: empty carts are
redirected to `/cart`, otherwise the live materialization is rendered. -/
def getCheckout (products : List Product) (cart : List CartEntry) :
    GetCheckoutResponse :=
  if cart.length = 0 then
    GetCheckoutResponse.redirectCart
  else
    GetCheckoutResponse.renderCheckout (materializeLive products cart)
      (liveTotal products cart)

/-- The `GET /orders` handler's read of the order collection
(`src/server.js` lines 517-522): a filter by the session user's id over
the orders file alone — the product collection is not consulted. -/
def ordersView (orders : List Order) (userId : String) : List Order :=
  orders.filter (fun o => o.userId == userId)

/-- The persistent collections touched by the checkout flow, one field per
JSON file, plus the session cart.  `writeJson(PRODUCTS_FILE, ...)` touches
only `products`; `writeJson(ORDERS_FILE, ...)` touches only `orders`. -/
structure AppState where
  products : List Product
  orders : List Order
  cart : List CartEntry
  deriving DecidableEq

/-- The `POST /checkout` handler as a transition on the combined state. -/
def appCheckout (st : AppState) (form : CheckoutForm)
    (userId oid ts : String) : CheckoutResponse × AppState :=
  let r := checkoutSubmit form st.products st.cart st.orders userId oid ts
  (r.1, { products := st.products, cart := r.2.1, orders := r.2.2 })

/-- A later edit of the product collection — any overwrite of
`products.json` (price change, name change, deletion …).  No route in
`src/server.js` edits products after seeding, so the edit is modelled as
an arbitrary replacement of that one file; `orders.json` is a separate
file and is not touched. -/
def writeProductsFile (st : AppState) (newProducts : List Product) :
    AppState :=
  { st with products := newProducts }

/-- The sample catalog written by `seedProducts` when the products file is
empty (`src/server.js` lines 61-147). -/
def sampleProducts : List Product :=
  [ { id := "G24N001"
      name := "24K Royal Heritage Necklace"
      price := 54999
      image := "/images/gold-necklace-24k.jpg"
      category := "Necklace"
      metal := "Gold"
      carat := 24
      description := "Pure 24K gold-inspired finish necklace with intricate heritage motifs, perfect for bridal looks." },
    { id := "G22S001"
      name := "22K Temple Set with Earrings"
      price := 42999
      image := "/images/gold-set-22k.jpg"
      category := "Bridal Set"
      metal := "Gold"
      carat := 22
      description := "Traditional 22K look choker set with matching jhumkas, inspired by South Indian temple jewelry." },
    { id := "G22B001"
      name := "22K Classic Kada Bangle"
      price := 18999
      image := "/images/gold-bangle-22k.jpg"
      category := "Bangle"
      metal := "Gold"
      carat := 22
      description := "Elegant single kada with a timeless design, perfect for everyday luxury." },
    { id := "G18R001"
      name := "18K Solitaire Style Ring"
      price := 12999
      image := "/images/gold-ring-18k.jpg"
      category := "Ring"
      metal := "Gold"
      carat := 18
      description := "Delicate 18K look ring with high-shine stone setting, ideal for proposals and anniversaries." },
    { id := "D18R001"
      name := "Diamond Halo Engagement Ring"
      price := 69999
      image := "/images/diamond-ring-18k.jpg"
      category := "Ring"
      metal := "Diamond"
      carat := 18
      description := "Sparkling halo diamond style ring set on 18K finish band for a classic proposal moment." },
    { id := "D18N001"
      name := "Diamond Droplet Necklace"
      price := 89999
      image := "/images/diamond-necklace-18k.jpg"
      category := "Necklace"
      metal := "Diamond"
      carat := 18
      description := "Fine necklace with droplet diamonds-style arrangement that beautifully frames the neckline." },
    { id := "S925B001"
      name := "925 Silver Minimal Bracelet"
      price := 2999
      image := "/images/silver-bracelet-925.jpg"
      category := "Bracelet"
      metal := "Silver"
      carat := 925
      description := "Everyday wear 925 silver bracelet with minimal design for subtle elegance." },
    { id := "S925A001"
      name := "925 Silver Anklet with Ghungroo"
      price := 2499
      image := "/images/silver-anklet-925.jpg"
      category := "Anklet"
      metal := "Silver"
      carat := 925
      description := "Traditional silver anklet with tiny ghungroos for a soft, melodious charm." } ]

theorem materializeLive_length (products : List Product)
    (cart : List CartEntry) :
    (materializeLive products cart).length =
      (cart.filter (fun e => (findProduct products e.productId).isSome)).length := by
  induction cart with
  | nil => rfl
  | cons e rest ih =>
      rw [materializeLive_cons]
      cases h : findProduct products e.productId <;>
        simp [List.filter_cons, h, ih]

theorem materializeLive_mem (products : List Product) (cart : List CartEntry) :
    ∀ li ∈ materializeLive products cart, ∃ e ∈ cart,
      findProduct products e.productId = some li.product ∧
      li.quantity = e.quantity ∧
      li.lineTotal = li.product.price * e.quantity := by
  induction cart with
  | nil => simp [materializeLive_nil]
  | cons e rest ih =>
      rw [materializeLive_cons]
      cases h : findProduct products e.productId with
      | none =>
          intro li hli
          obtain ⟨e', he', h1, h2, h3⟩ := ih li hli
          exact ⟨e', List.mem_cons_of_mem _ he', h1, h2, h3⟩
      | some p =>
          intro li hli
          rcases List.mem_cons.mp hli with heq | hmem
          · subst heq
            exact ⟨e, List.mem_cons_self _ _, by simp [h]⟩
          · obtain ⟨e', he', h1, h2, h3⟩ := ih li hmem
            exact ⟨e', List.mem_cons_of_mem _ he', h1, h2, h3⟩

/-- C1: materializing the cart as `GET /cart` does produces one line item
per cart entry whose `productId` resolves to a product (dangling entries
are silently dropped), each surviving line item carries
`lineTotal = product.price * quantity`, and the returned total is the sum
of the per-entry contributions, a dangling entry contributing `0` — hence
`0` for an empty or fully-dangling cart. -/
theorem cart_view_materialization (products : List Product)
    (cart : List CartEntry) :
    liveTotal products cart = (cart.map (entryContrib products)).sum ∧
    (materializeLive products cart).length =
      (cart.filter (fun e => (findProduct products e.productId).isSome)).length ∧
    ∀ li ∈ materializeLive products cart, ∃ e ∈ cart,
      findProduct products e.productId = some li.product ∧
      li.quantity = e.quantity ∧
      li.lineTotal = li.product.price * e.quantity :=
  ⟨liveTotal_eq_sum products cart, materializeLive_length products cart,
    materializeLive_mem products cart⟩

/-- Witness for C1 on the seeded catalog: the cart holding two of product
`G24N001` (price 54999) and five of a dangling id totals `109998`, the
dangling entry contributing zero. -/
theorem cart_view_materialization_witness :
    liveTotal sampleProducts
      [{ productId := "G24N001", quantity := 2 },
       { productId := "NOPE", quantity := 5 }] = 109998 := by
  rw [(cart_view_materialization sampleProducts
    [{ productId := "G24N001", quantity := 2 },
     { productId := "NOPE", quantity := 5 }]).1]
  decide

/-- C3: the total the cart view and checkout view display (live-reference
materialization) equals the total the checkout submit commits into the
order record (snapshot-form materialization) on the same cart and product
collection. -/
theorem displayed_total_eq_committed_total (products : List Product)
    (cart : List CartEntry) :
    liveTotal products cart =
      snapshotTotal (materializeSnapshot products cart) := by
  rw [liveTotal_eq_sum, snapshotTotal_eq_sum]

/-- C2: an authenticated `POST /checkout` clears the session cart exactly
when all six required fields are present and non-empty; when any field is
missing or empty the handler re-renders the checkout view with the live
materialization, its total and the message `"Please fill all fields."`,
and both the session cart and the persisted order collection are returned
unchanged — no partial order is written. -/
theorem checkout_clears_cart_iff_valid (form : CheckoutForm)
    (products : List Product) (cart : List CartEntry) (orders : List Order)
    (userId oid ts : String) :
    (allFieldsPresent form →
      (checkoutSubmit form products cart orders userId oid ts).2.1 = []) ∧
    (¬ allFieldsPresent form →
      checkoutSubmit form products cart orders userId oid ts =
        (CheckoutResponse.renderCheckout (materializeLive products cart)
          (liveTotal products cart) "Please fill all fields.",
         cart, orders)) := by
  constructor
  · intro h
    obtain ⟨h1, h2, h3, h4, h5, h6⟩ := h
    simp [checkoutSubmit, h1, h2, h3, h4, h5, h6]
  · intro h
    have hc : form.name = "" ∨ form.phone = "" ∨ form.address = "" ∨
        form.city = "" ∨ form.pincode = "" ∨ form.paymentMethod = "" := by
      unfold allFieldsPresent at h
      tauto
    unfold checkoutSubmit
    rw [if_pos hc]

/-- Witness for C2: with the cart `[{X, 1}]`, a complete form clears the
cart, and the same form with an empty `address` re-renders checkout and
leaves cart and orders untouched. -/
theorem checkout_clears_cart_iff_valid_witness :
    (checkoutSubmit
      { name := "Asha", phone := "9000000000", address := "12 MG Road",
        city := "Pune", pincode := "411001", paymentMethod := "COD" }
      [] [{ productId := "X", quantity := 1 }] [] "U1" "O1" "T1").2.1 = [] ∧
    checkoutSubmit
      { name := "Asha", phone := "9000000000", address := "",
        city := "Pune", pincode := "411001", paymentMethod := "COD" }
      [] [{ productId := "X", quantity := 1 }] [] "U1" "O1" "T1" =
      (CheckoutResponse.renderCheckout
        (materializeLive [] [{ productId := "X", quantity := 1 }])
        (liveTotal [] [{ productId := "X", quantity := 1 }])
        "Please fill all fields.",
       [{ productId := "X", quantity := 1 }], []) :=
  ⟨(checkout_clears_cart_iff_valid _ _ _ _ _ _ _).1 (by decide),
   (checkout_clears_cart_iff_valid _ _ _ _ _ _ _).2 (by decide)⟩

theorem materializeSnapshot_mem (products : List Product)
    (cart : List CartEntry) :
    ∀ item ∈ materializeSnapshot products cart, ∃ e ∈ cart, ∃ p,
      findProduct products e.productId = some p ∧
      item.productId = p.id ∧ item.name = p.name ∧
      item.price = p.price ∧ item.quantity = e.quantity := by
  induction cart with
  | nil => simp [materializeSnapshot_nil]
  | cons e rest ih =>
      rw [materializeSnapshot_cons]
      cases h : findProduct products e.productId with
      | none =>
          intro item hitem
          obtain ⟨e', he', p, h1, h2, h3, h4, h5⟩ := ih item hitem
          exact ⟨e', List.mem_cons_of_mem _ he', p, h1, h2, h3, h4, h5⟩
      | some p =>
          intro item hitem
          rcases List.mem_cons.mp hitem with heq | hmem
          · subst heq
            exact ⟨e, List.mem_cons_self _ _, p, h, rfl, rfl, rfl, rfl⟩
          · obtain ⟨e', he', p', h1, h2, h3, h4, h5⟩ := ih item hmem
            exact ⟨e', List.mem_cons_of_mem _ he', p', h1, h2, h3, h4, h5⟩

/-- C4: a successful checkout appends exactly one order whose line items
are snapshots — copies of `productId`, `name`, `price` and the entry's
`quantity` as they were at order time — whose `total` is computed from
those copies, and a later overwrite of the product collection (price or
name edits included) leaves the persisted order collection untouched. -/
theorem order_snapshot_immune (st : AppState) (form : CheckoutForm)
    (userId oid ts : String) (newProducts : List Product)
    (h : allFieldsPresent form) :
    (writeProductsFile (appCheckout st form userId oid ts).2
        newProducts).orders = (appCheckout st form userId oid ts).2.orders ∧
    ∃ o, (appCheckout st form userId oid ts).2.orders = st.orders ++ [o] ∧
      o.total = snapshotTotal o.items ∧
      ∀ item ∈ o.items, ∃ e ∈ st.cart, ∃ p,
        findProduct st.products e.productId = some p ∧
        item.productId = p.id ∧ item.name = p.name ∧
        item.price = p.price ∧ item.quantity = e.quantity := by
  obtain ⟨h1, h2, h3, h4, h5, h6⟩ := h
  refine ⟨rfl, ?_⟩
  refine ⟨{ id := oid, userId := userId, customerName := form.name,
            phone := form.phone, address := form.address, city := form.city,
            pincode := form.pincode, paymentMethod := form.paymentMethod,
            items := materializeSnapshot st.products st.cart,
            total := snapshotTotal (materializeSnapshot st.products st.cart),
            status := "Pending", createdAt := ts }, ?_, rfl, ?_⟩
  · simp [appCheckout, checkoutSubmit, h1, h2, h3, h4, h5, h6]
  · exact materializeSnapshot_mem st.products st.cart

/-- A one-product catalog used by concrete witness states. -/
def demoProduct : Product :=
  { id := "P1"
    name := "Demo Ring"
    price := 100
    image := "/images/demo.jpg"
    category := "Ring"
    metal := "Gold"
    carat := 22
    description := "A demo record." }

/-- A combined state holding the demo catalog, no orders and a cart with
two units of the demo product. -/
def demoState : AppState :=
  { products := [demoProduct]
    orders := []
    cart := [{ productId := "P1", quantity := 2 }] }

/-- A complete checkout form used by concrete witnesses. -/
def demoForm : CheckoutForm :=
  { name := "Asha"
    phone := "9000000000"
    address := "12 MG Road"
    city := "Pune"
    pincode := "411001"
    paymentMethod := "COD" }

/-- Witness for C4: from the demo state, a successful checkout appends a
snapshot order, and rewriting the catalog with the price changed to `999`
leaves the persisted orders as they were. -/
theorem order_snapshot_immune_witness :
    (writeProductsFile (appCheckout demoState demoForm "U1" "O1" "T1").2
        [{ demoProduct with price := 999 }]).orders =
      (appCheckout demoState demoForm "U1" "O1" "T1").2.orders ∧
    ∃ o, (appCheckout demoState demoForm "U1" "O1" "T1").2.orders =
        demoState.orders ++ [o] ∧
      o.total = snapshotTotal o.items ∧
      ∀ item ∈ o.items, ∃ e ∈ demoState.cart, ∃ p,
        findProduct demoState.products e.productId = some p ∧
        item.productId = p.id ∧ item.name = p.name ∧
        item.price = p.price ∧ item.quantity = e.quantity :=
  order_snapshot_immune demoState demoForm "U1" "O1" "T1"
    [{ demoProduct with price := 999 }] (by decide)

/-- C10: an authenticated `POST /checkout` whose session cart is empty but
whose six fields are all present still creates and persists an order, with
an empty item list and total `0` — the non-empty-cart precondition lives
only in `GET /checkout`, which redirects an empty cart to `/cart`. -/
theorem checkout_empty_cart_creates_order (form : CheckoutForm)
    (products : List Product) (orders : List Order) (userId oid ts : String)
    (h : allFieldsPresent form) :
    checkoutSubmit form products [] orders userId oid ts =
      (CheckoutResponse.redirectOrders, [],
       orders ++ [{ id := oid, userId := userId, customerName := form.name,
                    phone := form.phone, address := form.address,
                    city := form.city, pincode := form.pincode,
                    paymentMethod := form.paymentMethod, items := [],
                    total := 0, status := "Pending", createdAt := ts }]) ∧
    getCheckout products [] = GetCheckoutResponse.redirectCart := by
  obtain ⟨h1, h2, h3, h4, h5, h6⟩ := h
  refine ⟨?_, rfl⟩
  simp only [checkoutSubmit, h1, h2, h3, h4, h5, h6]
  simp [materializeSnapshot_nil, snapshotTotal]

/-- Witness for C10: the demo form with an empty cart writes an order with
no items and total `0`. -/
theorem checkout_empty_cart_creates_order_witness :
    checkoutSubmit demoForm [demoProduct] [] [] "U1" "O1" "T1" =
      (CheckoutResponse.redirectOrders, [],
       [{ id := "O1", userId := "U1", customerName := demoForm.name,
          phone := demoForm.phone, address := demoForm.address,
          city := demoForm.city, pincode := demoForm.pincode,
          paymentMethod := demoForm.paymentMethod, items := [],
          total := 0, status := "Pending", createdAt := "T1" }]) ∧
    getCheckout [demoProduct] [] = GetCheckoutResponse.redirectCart := by
  have h := checkout_empty_cart_creates_order demoForm [demoProduct] []
    "U1" "O1" "T1" (by decide)
  simpa using h

/-- C5 (evidence for the code bug): the quantity parsing of
`POST /cart/add/:id` does not fail safe.  The `|| "1"` default applies
only to an absent or empty field, so a non-numeric string is stored as
`NaN` (none), `"0"` is stored as `0` and `"-2"` as `-2`; only the truly
absent field falls back to `1`.  The spec's policy — parse failures fall
back to 1, never zero or negative — is violated. -/
theorem cart_add_quantity_parse_unsafe :
    cartAddHandler [] "G24N001" (some "abc") =
      [{ productId := "G24N001", quantity := none }] ∧
    cartAddHandler [] "G24N001" (some "0") =
      [{ productId := "G24N001", quantity := some 0 }] ∧
    cartAddHandler [] "G24N001" (some "-2") =
      [{ productId := "G24N001", quantity := some (-2) }] ∧
    cartAddHandler [] "G24N001" none =
      [{ productId := "G24N001", quantity := some 1 }] := by
  decide

theorem clampQty_pos (newQty : Option Int) : 1 ≤ clampQty newQty := by
  cases newQty with
  | none => simp [clampQty]
  | some n =>
      simp only [clampQty]
      split <;> omega

theorem updOne_productId (m : List (String × String)) (item : CartEntry) :
    (updOne m item).productId = item.productId := by
  unfold updOne
  split
  · rfl
  · split <;> rfl

theorem updOne_skip (m : List (String × String)) (item : CartEntry)
    (h : lookupQty m item.productId = none ∨
      lookupQty m item.productId = some "") :
    updOne m item = item := by
  rcases h with h | h <;> simp [updOne, h]

theorem updOne_set (m : List (String × String)) (item : CartEntry)
    (v : String) (hv : lookupQty m item.productId = some v) (hne : v ≠ "") :
    (updOne m item).quantity = clampQty (parseIntJS v) := by
  simp [updOne, hv, hne]

theorem updOne_quantity_pos (m : List (String × String)) (item : CartEntry)
    (h : 1 ≤ item.quantity) : 1 ≤ (updOne m item).quantity := by
  unfold updOne
  split
  · exact h
  · split
    · exact h
    · exact clampQty_pos _

theorem zip_map_mem {α β : Type} (f : α → β) (l : List α) :
    ∀ pq ∈ l.zip (l.map f), pq.1 ∈ l ∧ pq.2 = f pq.1 := by
  induction l with
  | nil => simp
  | cons x xs ih =>
      intro pq hpq
      simp only [List.map_cons, List.zip_cons_cons, List.mem_cons] at hpq
      rcases hpq with heq | hmem
      · subst heq
        exact ⟨List.mem_cons_self _ _, rfl⟩
      · obtain ⟨h1, h2⟩ := ih pq hmem
        exact ⟨List.mem_cons_of_mem _ h1, h2⟩

/-- C6 counterexample: the claim says an entry whose id appears in the
submitted map with a value that does not parse to a positive integer is
clamped to `1` — but the handler's truthiness guard skips an entry whose
submitted value is the empty string, leaving its old quantity `5`. -/
theorem updateQuantities_empty_value_skipped :
    updateQuantities [{ productId := "A1", quantity := 5 }] [("A1", "")] =
      [{ productId := "A1", quantity := 5 }] ∧ (5 : Int) ≠ 1 := by
  decide

/-- C6 (amended): `POST /cart/update` maps over the existing entries only
(never creating entries, preserving ids and order), leaves an entry
unchanged when its id is absent from the map **or maps to the empty
string**, and otherwise stores the parsed value when it is a positive
integer and `1` otherwise; hence no updated entry is ever `≤ 0`, and a
cart whose quantities were all `≥ 1` stays that way. -/
theorem updateQuantities_spec (cart : List CartEntry)
    (m : List (String × String)) (h : ∀ e ∈ cart, 1 ≤ e.quantity) :
    (updateQuantities cart m).length = cart.length ∧
    (∀ pq ∈ cart.zip (updateQuantities cart m),
      pq.2.productId = pq.1.productId ∧
      ((lookupQty m pq.1.productId = none ∨
          lookupQty m pq.1.productId = some "") → pq.2 = pq.1) ∧
      (∀ v, lookupQty m pq.1.productId = some v → v ≠ "" →
        pq.2.quantity = clampQty (parseIntJS v))) ∧
    ∀ e ∈ updateQuantities cart m, 1 ≤ e.quantity := by
  refine ⟨by simp [updateQuantities], ?_, ?_⟩
  · intro pq hpq
    obtain ⟨hmem, heq⟩ := zip_map_mem (updOne m) cart pq hpq
    rw [heq]
    exact ⟨updOne_productId m pq.1, updOne_skip m pq.1,
      fun v hv hne => updOne_set m pq.1 v hv hne⟩
  · intro e he
    simp only [updateQuantities, List.mem_map] at he
    obtain ⟨e', he', rfl⟩ := he
    exact updOne_quantity_pos m e' (h e' he')

/-- Witness for C6: submitting `"0"` for the only entry clamps it to `1`,
and the result keeps one entry with a positive quantity. -/
theorem updateQuantities_spec_witness :
    (updateQuantities [{ productId := "A1", quantity := 5 }]
      [("A1", "0")]).length = 1 ∧
    1 ≤ ({ productId := "A1", quantity := 1 } : CartEntry).quantity :=
  ⟨(updateQuantities_spec [{ productId := "A1", quantity := 5 }]
      [("A1", "0")] (by decide)).1,
   (updateQuantities_spec [{ productId := "A1", quantity := 5 }]
      [("A1", "0")] (by decide)).2.2
     { productId := "A1", quantity := 1 } (by decide)⟩

theorem find?_append_matching (cart : List JSCartEntry) (pid : String)
    (q : Option Int) (h : ∀ e ∈ cart, e.productId ≠ pid) :
    ((cart ++ [({ productId := pid, quantity := q } : JSCartEntry)]).find?
      (fun item => item.productId == pid)) =
      some { productId := pid, quantity := q } := by
  induction cart with
  | nil => simp
  | cons e rest ih =>
      have hne : (e.productId == pid) = false := by
        simpa using h e (List.mem_cons_self _ _)
      simp only [List.cons_append, List.find?_cons, hne]
      exact ih (fun x hx => h x (List.mem_cons_of_mem _ hx))

theorem bumpFirst_append (cart : List JSCartEntry) (pid : String)
    (q q2 : Option Int) (h : ∀ e ∈ cart, e.productId ≠ pid) :
    bumpFirst (cart ++ [({ productId := pid, quantity := q } : JSCartEntry)])
        pid q2 =
      cart ++ [{ productId := pid, quantity := jadd q q2 }] := by
  induction cart with
  | nil => simp [bumpFirst]
  | cons e rest ih =>
      have hne : (e.productId == pid) = false := by
        simpa using h e (List.mem_cons_self _ _)
      simp only [List.cons_append, bumpFirst, hne, Bool.false_eq_true,
        if_false, List.append_eq]
      rw [ih (fun x hx => h x (List.mem_cons_of_mem _ hx))]

/-- C7 counterexample: the claim quantifies over every cart state, but when
the cart already holds an entry for the product (here quantity `5`),
adding `q1 = 1` and then `q2 = 1` leaves one entry with quantity `7`, not
`q1 + q2 = 2`. -/
theorem cart_add_twice_preexisting :
    cartAddJS (cartAddJS [{ productId := "A1", quantity := some 5 }]
        "A1" (some 1)) "A1" (some 1) =
      [{ productId := "A1", quantity := some 7 }] ∧
    (some 7 : Option Int) ≠ some (1 + 1) := by
  decide

/-- C7 (amended): starting from any cart with **no** entry for the
product, adding quantities `q1` then `q2` appends exactly one entry for it
at the end of the sequence — the prior entries kept in order — holding
quantity `q1 + q2`. -/
theorem cart_add_twice_merges (cart : List JSCartEntry) (pid : String)
    (q1 q2 : Int) (h : ∀ e ∈ cart, e.productId ≠ pid) :
    cartAddJS (cartAddJS cart pid (some q1)) pid (some q2) =
      cart ++ [{ productId := pid, quantity := some (q1 + q2) }] ∧
    ((cartAddJS (cartAddJS cart pid (some q1)) pid (some q2)).filter
      (fun e => e.productId == pid)).length = 1 := by
  have hfind : cart.find? (fun e => e.productId == pid) = none :=
    List.find?_eq_none.mpr (fun x hx => by simpa using h x hx)
  have hstep1 : cartAddJS cart pid (some q1) =
      cart ++ [{ productId := pid, quantity := some q1 }] := by
    simp [cartAddJS, hfind]
  have hstep2 : cartAddJS (cartAddJS cart pid (some q1)) pid (some q2) =
      cart ++ [{ productId := pid, quantity := some (q1 + q2) }] := by
    rw [hstep1]
    unfold cartAddJS
    rw [find?_append_matching cart pid (some q1) h]
    simp only [Option.isSome_some, if_true]
    exact bumpFirst_append cart pid (some q1) (some q2) h
  refine ⟨hstep2, ?_⟩
  rw [hstep2, List.filter_append]
  have hcart : cart.filter (fun e => e.productId == pid) = [] := by
    rw [List.filter_eq_nil_iff]
    intro a ha
    simpa using h a ha
  simp [hcart]

/-- Witness for C7: a cart holding only product `B2` gains a single `A1`
entry with quantity `1 + 2 = 3`, appended after `B2`. -/
theorem cart_add_twice_merges_witness :
    cartAddJS (cartAddJS [{ productId := "B2", quantity := some 2 }]
        "A1" (some 1)) "A1" (some 2) =
      [{ productId := "B2", quantity := some 2 }] ++
        [{ productId := "A1", quantity := some (1 + 2) }] ∧
    ((cartAddJS (cartAddJS [{ productId := "B2", quantity := some 2 }]
        "A1" (some 1)) "A1" (some 2)).filter
      (fun e => e.productId == "A1")).length = 1 :=
  cart_add_twice_merges [{ productId := "B2", quantity := some 2 }]
    "A1" 1 2 (by decide)

/-- The purity condition the metal pages actually implement: keep every
product when the parsed carat query is `NaN` or `0`, else require exact
carat equality. -/
def caratKeep (purity : Option Int) (p : Product) : Bool :=
  match purity with
  | none => true
  | some n => n == 0 || p.carat == n

/-- C8 counterexample: with the seeded catalog and carat query `"abc"` —
neither `0` nor absent — the gold page returns the whole gold list even
though no returned product's carat equals the parsed purity (the parse
yields `NaN`): the purity filter is skipped rather than applied. -/
theorem metal_filter_nan_skipped :
    metalPage sampleProducts "Gold" (some "abc") ≠ [] ∧
    (metalPage sampleProducts "Gold" (some "abc")).filter
      (fun p => some p.carat == parseCarat (some "abc")) = [] ∧
    parseCarat (some "abc") = none := by
  decide

/-- C8 (amended): each metal page returns exactly the products of that
metal, in storage order, with the purity filter applied only when the
carat query parses to a non-zero integer: an absent, empty, zero or
**non-numeric** query leaves the metal list unfiltered, and otherwise only
products whose carat equals the parsed value survive. -/
theorem metalPage_single_filter (products : List Product) (metal : String)
    (caratQ : Option String) :
    metalPage products metal caratQ =
      products.filter (fun p =>
        p.metal == metal && caratKeep (parseCarat caratQ) p) ∧
    parseCarat none = some 0 := by
  refine ⟨?_, rfl⟩
  unfold metalPage
  cases hp : parseCarat caratQ with
  | none => simp [caratKeep]
  | some n =>
      by_cases hn : n = 0
      · subst hn
        simp [caratKeep]
      · simp only [if_neg hn]
        rw [List.filter_filter]
        apply List.filter_congr
        intro p _
        have hn' : (n == 0) = false := by simpa using hn
        simp [caratKeep, hn', Bool.and_comm]

/-- C9: `readJson` returns the empty collection whenever the backing file
is unreadable (the read throws) or its contents fail to parse, so the
request proceeds as if the collection were empty instead of seeing the
error. -/
theorem readJson_fail_open {α : Type} (parse : String → Option (List α))
    (r : FileRead)
    (h : r = FileRead.failure ∨ ∃ raw, r = FileRead.content raw ∧
      parse (if raw = "" then "[]" else raw) = none) :
    readJson parse r = [] := by
  rcases h with h | ⟨raw, hr, hp⟩
  · subst h
    rfl
  · subst hr
    simp [readJson, hp]

/-- Witness for C9: a parser that rejects everything still yields the
empty collection both for a failed read and for malformed contents. -/
theorem readJson_fail_open_witness :
    readJson (fun _ => (none : Option (List Nat))) FileRead.failure = [] ∧
    readJson (fun _ => (none : Option (List Nat)))
      (FileRead.content "not json") = [] :=
  ⟨readJson_fail_open _ FileRead.failure (Or.inl rfl),
   readJson_fail_open _ (FileRead.content "not json")
     (Or.inr ⟨"not json", rfl, rfl⟩)⟩

end NavyaJewels
